import Mathlib

/- Shallow embedding of `arff_to_mysql.py`, a converter from ARFF datasets to
   MySQL statements.  Python strings are Lean `String`; Python `float` is
   modelled as `Rat` (the program only parses and re-prints short exact
   decimals, no float arithmetic is performed); code that can raise a Python
   exception is modelled in `Except PyErr`.  Everything the program writes
   (formatter output and `print` statements) is collected as an event trace
   in the order it is produced. -/

-- The Python exception classes that the source can raise.
inductive PyErr where
  | typeError
  | attributeError
  | indexError
  | valueError
  | nameError
deriving DecidableEq

-- Attribute.DataType in the source (integer class constants 0..6).
inductive DataType where
  | NUMERIC
  | NOMINAL
  | STRING
  | DATE
  | RELATIONAL
  | INTEGER
  | REAL
deriving DecidableEq

-- A parsed Python value stored in Attribute.value.
inductive PyValue where
  | float (q : Rat)
  | int (n : Int)
  | str (s : String)
deriving DecidableEq

/-- One declared column.  Python attributes that `__init__` may leave unset
(`datatype`, `dateformat`, `accepts`) are `Option`; reading them while unset
raises `AttributeError` in Python and is modelled as `.error .attributeError`
at the use sites.  `value` is initialised to `None` by the constructor. -/
structure Attribute where
  value : Option PyValue
  name : String
  datatype : Option DataType
  dateformat : Option String
  accepts : Option (List String)
deriving DecidableEq

/-- An Instance's `fields` list aliases the parser's shared Attribute
objects; the aliasing is modelled by storing the indices of those objects
in the parser's attribute list. -/
structure Instance where
  fields : List Nat
deriving DecidableEq

-- One unit of output: a formatter write or a `print` statement.
inductive Event where
  | comment (text : String)
  | create (table : String) (attrs : List Attribute)
  | insert (table : String) (inst : Instance) (attrs : List Attribute)
  | printed (text : String)
deriving DecidableEq

-- ---------------------------------------------------------------------------
-- Python string primitives
-- ---------------------------------------------------------------------------

-- The whitespace set of Python str.strip().
def pyIsSpace (c : Char) : Bool :=
  c = ' ' || c = '\t' || c = '\n' || c = '\r' || c = '\x0b' || c = '\x0c'

-- str.strip()
def pyStrip (s : String) : String :=
  String.mk (((s.data.dropWhile pyIsSpace).reverse.dropWhile pyIsSpace).reverse)

def pySplitCharGo (sep : Char) : List Char → List Char → List String
  | [], cur => [String.mk cur.reverse]
  | c :: cs, cur =>
    if c = sep then String.mk cur.reverse :: pySplitCharGo sep cs []
    else pySplitCharGo sep cs (c :: cur)

-- str.split(sep) for a one-character separator (e.g. line.split(',')).
def pySplitChar (sep : Char) (s : String) : List String :=
  pySplitCharGo sep s.data []

def pySplitOnceGo : List Char → List Char → List String
  | [], acc => [String.mk acc.reverse]
  | c :: cs, acc =>
    if c = ' ' then [String.mk acc.reverse, String.mk cs]
    else pySplitOnceGo cs (c :: acc)

-- str.split(' ', 1): split at the first space only.
def pySplitOnce (s : String) : List String :=
  pySplitOnceGo s.data []

-- s[1:][:-1]: drop the first and the last character.
def pySlice1 (s : String) : String :=
  String.mk ((s.data.drop 1).dropLast)

-- sep.join(list)
def joinSep (sep : String) : List String → String
  | [] => ""
  | [s] => s
  | s :: ss => s ++ sep ++ joinSep sep ss

-- str.replace(' ', '_')
def pyReplaceSpace (s : String) : String :=
  String.mk (s.data.map (fun c => if c = ' ' then '_' else c))

def digitsVal (cs : List Char) : Nat :=
  cs.foldl (fun n c => 10 * n + (c.toNat - 48)) 0

-- The exponent suffix of a float literal, applied to mantissa num/den.
def expPart (num : Int) (den : Nat) (r : List Char) : Option Rat :=
  let esr : Int × List Char :=
    match r with
    | '+' :: r2 => (1, r2)
    | '-' :: r2 => (-1, r2)
    | r2 => (1, r2)
  let ed := esr.2.takeWhile Char.isDigit
  if ed.isEmpty || !(esr.2.dropWhile Char.isDigit).isEmpty then none
  else if esr.1 ≥ 0 then some (Rat.divInt (num * (10 ^ digitsVal ed : Nat)) (den : Int))
  else some (Rat.divInt num ((den * 10 ^ digitsVal ed : Nat) : Int))

/-- Python `float(s)` on a string: optional sign, digits with an optional
point, optional exponent, surrounded by optional whitespace.  The value is
kept exact as a rational (the program does no float arithmetic); `inf`/`nan`
spellings are not modelled, the inputs under study never use them. -/
def pyParseFloat (s : String) : Option Rat :=
  let cs0 := (pyStrip s).data
  let sgncs : Int × List Char :=
    match cs0 with
    | '+' :: r => (1, r)
    | '-' :: r => (-1, r)
    | r => (1, r)
  let ip := sgncs.2.takeWhile Char.isDigit
  let cs2 := sgncs.2.dropWhile Char.isDigit
  let fpcs : List Char × List Char :=
    match cs2 with
    | '.' :: r => (r.takeWhile Char.isDigit, r.dropWhile Char.isDigit)
    | r => ([], r)
  let fp := fpcs.1
  if ip.isEmpty && fp.isEmpty then none
  else
    let mantNum : Int := sgncs.1 * ((digitsVal ip) * 10 ^ fp.length + digitsVal fp)
    let mantDen : Nat := 10 ^ fp.length
    match fpcs.2 with
    | [] => some (Rat.divInt mantNum (mantDen : Int))
    | 'e' :: r => expPart mantNum mantDen r
    | 'E' :: r => expPart mantNum mantDen r
    | _ => none

-- Python `int(s)` on a string: optional sign and decimal digits.
def pyParseInt (s : String) : Option Int :=
  let cs0 := (pyStrip s).data
  let sgncs : Int × List Char :=
    match cs0 with
    | '+' :: r => (1, r)
    | '-' :: r => (-1, r)
    | r => (1, r)
  if sgncs.2.isEmpty || !sgncs.2.all Char.isDigit then none
  else some (sgncs.1 * (digitsVal sgncs.2 : Int))

-- Decimal expansion of rem/den, up to `fuel` digits or until it terminates.
def fracDigitsN : Nat → Nat → Nat → List Nat
  | 0, _, _ => []
  | f + 1, rem, den =>
    if rem = 0 then []
    else (rem * 10 / den) :: fracDigitsN f (rem * 10 % den) den

def intRepr (n : Int) : String :=
  match n with
  | .ofNat m => Nat.repr m
  | .negSucc m => "-" ++ Nat.repr (m + 1)

/-- Python 2 `'%s' % f` for a float `f`, modelled on exact decimals in the
fixed-point range: sign, integral part, a point, and the fractional digits
(up to the 12 significant places `str` keeps), with `.0` for whole values. -/
def pyFloatRepr (q : Rat) : String :=
  let sign := if q.num < 0 then "-" else ""
  let n := q.num.natAbs
  let d := q.den
  let ds := fracDigitsN 12 (n % d) d
  let frac := if ds.isEmpty then "0" else joinSep "" (ds.map (fun k => Nat.repr k))
  sign ++ Nat.repr (n / d) ++ "." ++ frac

-- `'%s' % value` for the values an Attribute can hold.
def pyReprValue : PyValue → String
  | .float q => pyFloatRepr q
  | .int n => intRepr n
  | .str s => s

-- Python repr of a list of strings, as printed by `print attributes[i].accepts`.
def pyReprStrList (xs : List String) : String :=
  "[" ++ joinSep ", " (xs.map (fun s => "\x27" ++ s ++ "\x27")) ++ "]"

-- ---------------------------------------------------------------------------
-- imatches: re.compile(word, re.IGNORECASE).match(target)
-- ---------------------------------------------------------------------------

-- The fragment of regular expressions the program actually feeds to
-- `imatches`: literal characters (including braces and commas, which
-- Python's `re` treats literally when they form no quantifier), the
-- wildcard '.', and the postfix '*'.
inductive RAtom where
  | lit (c : Char)
  | dot
deriving DecidableEq

def mkAtom (c : Char) : RAtom :=
  if c = '.' then .dot else .lit c

def parsePattern : List Char → List (RAtom × Bool)
  | [] => []
  | c :: '*' :: cs => (mkAtom c, true) :: parsePattern cs
  | c :: cs => (mkAtom c, false) :: parsePattern cs

def atomMatch : RAtom → Char → Bool
  | .dot, _ => true
  | .lit c, d => c.toLower = d.toLower

/-- Prefix matching (`re.match` semantics): succeeds when the pattern
matches some prefix of the character list.  Fuel decreases on every call;
each step shrinks pattern or input, so the fuel supplied by `imatches`
is always sufficient. -/
def rmatchF : Nat → List (RAtom × Bool) → List Char → Bool
  | 0, _, _ => false
  | _ + 1, [], _ => true
  | fuel + 1, (a, false) :: ps, cs =>
    match cs with
    | [] => false
    | c :: cs2 => atomMatch a c && rmatchF fuel ps cs2
  | fuel + 1, (a, true) :: ps, cs =>
    rmatchF fuel ps cs ||
      (match cs with
       | [] => false
       | c :: cs2 => atomMatch a c && rmatchF fuel ((a, true) :: ps) cs2)

-- def imatches(word, match): re.compile(r'%s' % word, re.IGNORECASE).match(match)
def imatches (word target : String) : Bool :=
  let ps := parsePattern word.data
  rmatchF (ps.length + target.data.length + 1) ps target.data

-- ---------------------------------------------------------------------------
-- shlex.split (POSIX mode): whitespace splitting aware of quotes
-- ---------------------------------------------------------------------------

def shlexGo : List Char → Option Char → Bool → List Char → List String →
    Except PyErr (List String)
  | [], none, started, cur, acc =>
    .ok (if started then acc ++ [String.mk cur.reverse] else acc)
  | [], some _, _, _, _ => .error .valueError
  | c :: cs, none, started, cur, acc =>
    if pyIsSpace c then
      if started then shlexGo cs none false [] (acc ++ [String.mk cur.reverse])
      else shlexGo cs none false [] acc
    else if c = '\x27' || c = '"' then shlexGo cs (some c) true cur acc
    else if c = '\\' then
      match cs with
      | [] => .error .valueError
      | d :: cs2 => shlexGo cs2 none true (d :: cur) acc
    else shlexGo cs none true (c :: cur) acc
  | c :: cs, some q, _, cur, acc =>
    if c = q then shlexGo cs none true cur acc
    else if q = '"' && c = '\\' then
      match cs with
      | [] => .error .valueError
      | d :: cs2 =>
        if d = '"' || d = '\\' then shlexGo cs2 (some q) true (d :: cur) acc
        else shlexGo cs2 (some q) true (d :: '\\' :: cur) acc
    else shlexGo cs (some q) true (c :: cur) acc

def shlexSplit (s : String) : Except PyErr (List String) :=
  shlexGo s.data none false [] []

-- ---------------------------------------------------------------------------
-- Attribute.__init__
-- ---------------------------------------------------------------------------

def defaultAttr (nm : String) : Attribute :=
  { value := none, name := nm, datatype := none, dateformat := none, accepts := none }

/-- Attribute.__init__(defn): tokenize with shlex, take token 0 as the name
(spaces replaced with underscores) and dispatch on token 1.  Note: the source
tests `imatches(tokens[1], 'INTEGER')` twice (lines 107 and 113); the second
test guards the branch that builds a DATE attribute, so that branch is dead
code and no recognised keyword ever yields `DataType.DATE`.  When no branch
matches, `self.datatype` is simply never assigned. -/
def mkAttribute (defn : String) : Except PyErr (Attribute × List Event) :=
  match shlexSplit defn with
  | .error e => .error e
  | .ok [] => .error .indexError
  | .ok (t0 :: rest) =>
    let base := defaultAttr (pyReplaceSpace t0)
    match rest with
    | [] => .ok (base, [.printed ("bad attribute specification: " ++ defn)])
    | t1 :: rest2 =>
      if imatches t1 "REAL" then .ok ({ base with datatype := some .REAL }, [])
      else if imatches t1 "INTEGER" then .ok ({ base with datatype := some .INTEGER }, [])
      else if imatches t1 "NUMERIC" then .ok ({ base with datatype := some .NUMERIC }, [])
      else if imatches t1 "STRING" then .ok ({ base with datatype := some .STRING }, [])
      else if imatches t1 "INTEGER" then
        let fmt :=
          match rest2 with
          | t2 :: _ => pySlice1 t2
          | [] => "%Y-%m-%dT%H:%M:%S"
        .ok ({ base with datatype := some .DATE, dateformat := some fmt }, [])
      else if imatches "\x7b.*\x7d" t1 then
        let acc := pySplitChar ',' (pySlice1 t1)
        .ok ({ base with datatype := some .NOMINAL, accepts := some acc }, [])
      else .ok (base, [])

-- ---------------------------------------------------------------------------
-- Instance.__init__: parsing one data row against the shared attribute list
-- ---------------------------------------------------------------------------

/-- The body of the per-field loop in Instance.__init__, after
`values[i] = values[i].strip()`.  The `?` test happens before any access to
`datatype`; a `datatype` that was never assigned raises AttributeError.  The
DATE branch calls `datetime.strptime`, but the `datetime` module has no
`strptime` attribute (the source forgot the inner `.datetime`), so reaching
it raises AttributeError, which the surrounding `except ValueError` does not
catch. -/
def parseField (a : Attribute) (raw : String) : Except PyErr (Attribute × List Event) :=
  let v := pyStrip raw
  if v = "?" || v = "\x27?\x27" then .ok (a, [])
  else
    match a.datatype with
    | none => .error .attributeError
    | some dt =>
      if dt = .NUMERIC || dt = .REAL then
        match pyParseFloat v with
        | some q => .ok ({ a with value := some (.float q) }, [])
        | none => .ok (a, [.printed ("Could not parse field " ++ v)])
      else if dt = .INTEGER then
        match pyParseInt v with
        | some n => .ok ({ a with value := some (.int n) }, [])
        | none => .ok (a, [.printed ("Could not parse field " ++ v)])
      else if dt = .NOMINAL then
        match a.accepts with
        | none => .error .attributeError
        | some acc =>
          if acc.contains (pySlice1 v) then
            .ok ({ a with value := some (.str (pySlice1 v)) }, [])
          else
            .ok (a, [.printed (pyReprStrList acc),
                     .printed ("Bad value " ++ v ++ " for nominal attribute " ++ a.name)])
      else if dt = .DATE then .error .attributeError
      else if dt = .STRING then
        if v ≠ "?" then .ok ({ a with value := some (.str v) }, [])
        else .ok (a, [])
      else .ok (a, [])

/-- The loop `for i in range(0, len(attributes))` of Instance.__init__:
attribute `i` is processed against `values[i]`; running out of values raises
IndexError at `values[i].strip()`. -/
def parseInstanceAux : List Attribute → List String → Except PyErr (List Attribute × List Event)
  | [], _ => .ok ([], [])
  | _ :: _, [] => .error .indexError
  | a :: as, v :: vs =>
    match parseField a v with
    | .error e => .error e
    | .ok (a2, evs) =>
      match parseInstanceAux as vs with
      | .error e => .error e
      | .ok (as2, evs2) => .ok (a2 :: as2, evs ++ evs2)

/-- Instance(defn, attributes): split the line on commas and mutate the
shared attributes in place; `self.fields` ends up holding (references to)
the parser's attribute objects, modelled as the indices 0..len-1. -/
def parseInstance (defn : String) (attrs : List Attribute) :
    Except PyErr (Instance × List Attribute × List Event) :=
  match parseInstanceAux attrs (pySplitChar ',' defn) with
  | .error e => .error e
  | .ok (attrs2, evs) => .ok (⟨List.range attrs.length⟩, attrs2, evs)

-- ---------------------------------------------------------------------------
-- MySQLFormatter
-- ---------------------------------------------------------------------------

def NUMERIC_TYPE : String := "decimal(20,5)"
def STRING_TYPE : String := "varchar(72)"
def DATE_TYPE : String := "timestamp"
def INTEGER_TYPE : String := "int"
def REAL_TYPE : String := NUMERIC_TYPE

-- '`' + re.sub('[^a-zA-Z0-9_$]', '_', word) + '`'
def replaceBadChars (word : String) : String :=
  "\x60" ++
    String.mk (word.data.map (fun c => if c.isAlphanum || c = '_' || c = '$' then c else '_')) ++
    "\x60"

-- max(xs, key=len): the first element of maximal length; ValueError on [].
def maxByLen : List String → Option String
  | [] => none
  | x :: xs => some (xs.foldl (fun b a => if a.length > b.length then a else b) x)

/-- MySQLFormatter.__sql_type.  The `else` branch of the source returns the
integer `Attribute.DataType.STRING`, which then fails the string
concatenation in format_create with a TypeError; reading an unassigned
`datatype` raises AttributeError. -/
def sqlType (a : Attribute) : Except PyErr String :=
  match a.datatype with
  | none => .error .attributeError
  | some .NUMERIC => .ok NUMERIC_TYPE
  | some .REAL => .ok REAL_TYPE
  | some .INTEGER => .ok INTEGER_TYPE
  | some .DATE => .ok DATE_TYPE
  | some .STRING => .ok STRING_TYPE
  | some .NOMINAL =>
    match a.accepts with
    | none => .error .attributeError
    | some acc =>
      match maxByLen acc with
      | none => .error .valueError
      | some m => .ok ("varchar(" ++ Nat.repr m.length ++ ")")
  | some .RELATIONAL => .error .typeError

def colDefs : List Attribute → Except PyErr (List String)
  | [] => .ok []
  | a :: as =>
    match sqlType a with
    | .error e => .error e
    | .ok t =>
      match colDefs as with
      | .error e => .error e
      | .ok ts => .ok ((replaceBadChars a.name ++ " " ++ t) :: ts)

-- MySQLFormatter.format_create
def formatCreate (table : String) (attrs : List Attribute) : Except PyErr String :=
  match colDefs attrs with
  | .error e => .error e
  | .ok cs =>
    .ok ("CREATE TABLE " ++ replaceBadChars table ++ " (\n" ++
         joinSep ",\n\t" cs ++ "\n);\n\n")

/-- MySQLFormatter.__quote_value: `None` renders as NULL before any type
test; Date/String/Nominal values are single-quoted, the rest unquoted.
Reading an unassigned `datatype` raises AttributeError. -/
def quoteValue (field : Attribute) : Except PyErr String :=
  match field.value with
  | none => .ok "NULL"
  | some v =>
    match field.datatype with
    | none => .error .attributeError
    | some dt =>
      if dt = .DATE || dt = .STRING || dt = .NOMINAL then
        .ok ("\x27" ++ pyReprValue v ++ "\x27")
      else .ok (pyReprValue v)

def quoteFields (attrs : List Attribute) : List Nat → Except PyErr (List String)
  | [] => .ok []
  | i :: is =>
    match attrs[i]? with
    | none => .error .indexError
    | some a =>
      match quoteValue a with
      | .error e => .error e
      | .ok s =>
        match quoteFields attrs is with
        | .error e => .error e
        | .ok ss => .ok (s :: ss)

/-- MySQLFormatter.format_instance: the instance's fields are the shared
attribute objects, so their current values are read from the attribute
store `attrs` at rendering time. -/
def formatInstance (table : String) (inst : Instance) (attrs : List Attribute) :
    Except PyErr String :=
  match quoteFields attrs inst.fields with
  | .error e => .error e
  | .ok ss => .ok ("INSERT INTO " ++ table ++ " VALUES(" ++ joinSep ", " ss ++ ");\n")

def renderEvent : Event → Except PyErr String
  | .comment t => .ok ("--" ++ t)
  | .create r attrs => formatCreate r attrs
  | .insert r inst attrs => formatInstance r inst attrs
  | .printed t => .ok (t ++ "\n")

def renderEvents : List Event → Except PyErr (List String)
  | [] => .ok []
  | e :: es =>
    match renderEvent e with
    | .error err => .error err
    | .ok s =>
      match renderEvents es with
      | .error err => .error err
      | .ok ss => .ok (s :: ss)

-- ---------------------------------------------------------------------------
-- Arff: the line-by-line parser (formatter mode)
-- ---------------------------------------------------------------------------

/-- The mutable fields of the Arff object that the line loop reads and
writes.  `relation` starts unset (reading it before `@RELATION` raises
AttributeError), `attributes` starts empty, `has_data` starts False. -/
structure ArffState where
  relation : Option String
  attributes : List Attribute
  has_data : Bool
deriving DecidableEq

-- The stripped first space-separated component of a declaration line,
-- used (as a regular-expression pattern) for the keyword dispatch.
def declOf (line : String) : String :=
  pyStrip ((pySplitOnce line).headD "")

/-- Arff.__parse_declaration for a parser with a formatter attached:
split at the first space, strip the keyword, and dispatch in order
@RELATION / @ATTRIBUTE / @DATA by imatches (the stripped keyword is used as
the regular-expression pattern).  `value` is only bound when the split
produced two components; a branch that reads it while unbound raises
(UnboundLocal) NameError.  The @DATA branch sets has_data and immediately
calls format_create (reading `self.relation`, unset raises AttributeError). -/
def parseDeclaration (st : ArffState) (line : String) :
    Except PyErr (ArffState × List Event) :=
  let declaration := declOf line
  let value : Option String :=
    match pySplitOnce line with
    | [_, v] => some (pyStrip v)
    | _ => none
  if imatches declaration "@RELATION" then
    match value with
    | none => .error .nameError
    | some v => .ok ({ st with relation := some v }, [])
  else if imatches declaration "@ATTRIBUTE" then
    match value with
    | none => .error .nameError
    | some v =>
      match mkAttribute v with
      | .error e => .error e
      | .ok (a, evs) => .ok ({ st with attributes := st.attributes ++ [a] }, evs)
  else if imatches declaration "@DATA" then
    match st.relation with
    | none => .error .attributeError
    | some r =>
      match formatCreate r st.attributes with
      | .error e => .error e
      | .ok _ => .ok ({ st with has_data := true }, [.create r st.attributes])
  else .ok (st, [])

/-- One iteration of the formatter-mode loop of Arff.__parse_file:
`line[0]` (IndexError on an empty string), comment / declaration dispatch,
a data row when `has_data` is set (format_instance reads `self.relation`
before the row is parsed), and otherwise
`raise TypeError('Unexpected line encountered: ...')`. -/
def parseLine (st : ArffState) (line : String) :
    Except PyErr (ArffState × List Event) :=
  match line.data with
  | [] => .error .indexError
  | c :: rest =>
    if c = '%' then .ok (st, [.comment (String.mk rest)])
    else if c = '@' then parseDeclaration st line
    else if st.has_data then
      match st.relation with
      | none => .error .attributeError
      | some r =>
        match parseInstance line st.attributes with
        | .error e => .error e
        | .ok (inst, attrs2, evs) =>
          match formatInstance r inst attrs2 with
          | .error e => .error e
          | .ok _ => .ok ({ st with attributes := attrs2 }, evs ++ [.insert r inst attrs2])
    else .error .typeError

def runLines : ArffState → List String → Except PyErr (ArffState × List Event)
  | st, [] => .ok (st, [])
  | st, l :: ls =>
    match parseLine st l with
    | .error e => .error e
    | .ok (st2, evs) =>
      match runLines st2 ls with
      | .error e => .error e
      | .ok (st3, evs2) => .ok (st3, evs ++ evs2)

def initState : ArffState :=
  { relation := none, attributes := [], has_data := false }

/-- The whole formatter-mode run over the input's lines (the path taken by
`arff_to_mysql`, which attaches a MySQLFormatter): the trace of formatter
writes and prints, in order. -/
def arffEvents (lines : List String) : Except PyErr (List Event) :=
  match runLines initState lines with
  | .error e => .error e
  | .ok (_, evs) => .ok evs

-- The text the run writes to stdout, in order.
def arffOutput (lines : List String) : Except PyErr String :=
  match arffEvents lines with
  | .error e => .error e
  | .ok evs =>
    match renderEvents evs with
    | .error e => .error e
    | .ok ss => .ok (joinSep "" ss)

-- ---------------------------------------------------------------------------
-- Arff without a formatter (sql_formatter=None)
-- ---------------------------------------------------------------------------

structure ArffNoFmtState where
  relation : Option String
  attributes : List Attribute
  has_data : Bool
  header : List String
  instances : List Instance
deriving DecidableEq

/-- Arff.__parse_declaration when sql_formatter is None: identical except
that the @DATA branch, after setting has_data, calls
`self.sql_formatter.format_create` on None, raising AttributeError. -/
def parseDeclarationNoFmt (st : ArffNoFmtState) (line : String) :
    Except PyErr (ArffNoFmtState × List Event) :=
  let declaration := declOf line
  let value : Option String :=
    match pySplitOnce line with
    | [_, v] => some (pyStrip v)
    | _ => none
  if imatches declaration "@RELATION" then
    match value with
    | none => .error .nameError
    | some v => .ok ({ st with relation := some v }, [])
  else if imatches declaration "@ATTRIBUTE" then
    match value with
    | none => .error .nameError
    | some v =>
      match mkAttribute v with
      | .error e => .error e
      | .ok (a, evs) => .ok ({ st with attributes := st.attributes ++ [a] }, evs)
  else if imatches declaration "@DATA" then .error .attributeError
  else .ok (st, [])

/-- One iteration of the no-formatter loop of Arff.__parse_file: comments go
to the header buffer, rows are retained in `instances`, and an unexpected
line only prints a report and continues. -/
def parseLineNoFmt (st : ArffNoFmtState) (line : String) :
    Except PyErr (ArffNoFmtState × List Event) :=
  match line.data with
  | [] => .error .indexError
  | c :: rest =>
    if c = '%' then .ok ({ st with header := st.header ++ [String.mk rest] }, [])
    else if c = '@' then parseDeclarationNoFmt st line
    else if st.has_data then
      match parseInstance line st.attributes with
      | .error e => .error e
      | .ok (inst, attrs2, evs) =>
        .ok ({ st with attributes := attrs2, instances := st.instances ++ [inst] }, evs)
    else .ok (st, [.printed ("Unexpected line encountered:\n" ++ line)])

def runLinesNoFmt : ArffNoFmtState → List String → Except PyErr (ArffNoFmtState × List Event)
  | st, [] => .ok (st, [])
  | st, l :: ls =>
    match parseLineNoFmt st l with
    | .error e => .error e
    | .ok (st2, evs) =>
      match runLinesNoFmt st2 ls with
      | .error e => .error e
      | .ok (st3, evs2) => .ok (st3, evs ++ evs2)

-- ---------------------------------------------------------------------------
-- Observations used by the claims
-- ---------------------------------------------------------------------------

def isCreate : Event → Bool
  | .create _ _ => true
  | _ => false

def isInsert : Event → Bool
  | .insert _ _ _ => true
  | _ => false

def isPrinted : Event → Bool
  | .printed _ => true
  | _ => false

-- Scans a trace and checks that every insert event is preceded by a create.
def checkOrder : Bool → List Event → Bool
  | _, [] => true
  | seen, .insert _ _ _ :: es => seen && checkOrder seen es
  | _, .create _ _ :: es => checkOrder true es
  | seen, _ :: es => checkOrder seen es

-- A line that __parse_declaration dispatches to the @DATA branch.
def isDataDecl (line : String) : Bool :=
  match line.data with
  | '@' :: _ =>
    !imatches (declOf line) "@RELATION" && !imatches (declOf line) "@ATTRIBUTE" &&
      imatches (declOf line) "@DATA"
  | _ => false

-- A nonempty line that is neither a comment nor a declaration.
def isDataLine (line : String) : Bool :=
  match line.data with
  | [] => false
  | c :: _ => c != '%' && c != '@'

-- The rendered INSERT statements of a run, in order.
def insertSqls (lines : List String) : Except PyErr (List String) :=
  match arffEvents lines with
  | .error e => .error e
  | .ok evs => renderEvents (evs.filter isInsert)

-- The rendered CREATE TABLE statements of a run, in order.
def createSqls (lines : List String) : Except PyErr (List String) :=
  match arffEvents lines with
  | .error e => .error e
  | .ok evs => renderEvents (evs.filter isCreate)

/-- The number of data lines (nonempty, non-comment, non-declaration) that
appear after a line dispatched as @DATA; `seen` records whether @DATA has
already occurred. -/
def countDataAfter : Bool → List String → Nat
  | _, [] => 0
  | seen, l :: ls =>
    (if seen && isDataLine l then 1 else 0) + countDataAfter (seen || isDataDecl l) ls

/-- An attribute whose per-field parsing can never raise: its datatype is
assigned, is not the (unreachable) DATE case, and a NOMINAL attribute has
its accepted-value list assigned (as the constructor guarantees). -/
def benignAttr (a : Attribute) : Bool :=
  match a.datatype with
  | none => false
  | some .DATE => false
  | some .NOMINAL => a.accepts.isSome
  | some _ => true


def onlyPrints (evs : List Event) : Bool :=
  evs.all isPrinted

theorem onlyPrints_counts (evs : List Event) (h : onlyPrints evs = true) :
    evs.countP isCreate = 0 ∧ evs.countP isInsert = 0 ∧ evs.any isCreate = false := by
  induction evs with
  | nil => simp
  | cons e es ih =>
    cases e <;> simp_all [onlyPrints, isPrinted, isCreate, isInsert, List.countP_cons]

theorem parseField_onlyPrints (a : Attribute) (raw : String) (a2 : Attribute)
    (evs : List Event) (h : parseField a raw = .ok (a2, evs)) : onlyPrints evs = true := by
  simp only [parseField] at h
  repeat' first
    | (injection h with h1; injection h1 with h1 h2; subst h2; rfl)
    | exact Except.noConfusion h
    | split at h

theorem mkAttribute_onlyPrints (defn : String) (a : Attribute) (evs : List Event)
    (h : mkAttribute defn = .ok (a, evs)) : onlyPrints evs = true := by
  simp only [mkAttribute] at h
  repeat' first
    | (injection h with h1; injection h1 with h1 h2; subst h2; rfl)
    | exact Except.noConfusion h
    | split at h

theorem parseField_unchanged (a : Attribute) (raw : String) (a2 : Attribute)
    (evs : List Event) (h : parseField a raw = .ok (a2, evs))
    (hc : pyStrip raw = "?" ∨ pyStrip raw = "\x27?\x27" ∨
      ((a.datatype = some .NUMERIC ∨ a.datatype = some .REAL) ∧
        pyParseFloat (pyStrip raw) = none)) : a2 = a := by
  simp only [parseField] at h
  split at h
  · injection h with h1; injection h1 with h1 h2; exact h1.symm
  · rename_i hno
    rcases hc with hc | hc | ⟨hdt, hf⟩
    · exact absurd (by simp [hc]) hno
    · exact absurd (by simp [hc]) hno
    · split at h
      · exact Except.noConfusion h
      · rename_i dt hdt2
        split at h
        · split at h
          · rename_i q hq
            rw [hf] at hq
            exact Option.noConfusion hq
          · injection h with h1; injection h1 with h1 h2; exact h1.symm
        · rename_i hcond
          rcases hdt with hdt | hdt <;> rw [hdt] at hdt2 <;>
            injection hdt2 with hdt3 <;> subst hdt3 <;> simp at hcond

theorem parseField_benign (a : Attribute) (raw : String) (hb : benignAttr a = true) :
    ∃ a2 evs, parseField a raw = .ok (a2, evs) := by
  simp only [parseField]
  repeat' first
    | exact ⟨_, _, rfl⟩
    | split
  all_goals simp_all [benignAttr]

theorem parseInstanceAux_spec (attrs : List Attribute) (vs : List String)
    (attrs2 : List Attribute) (evs : List Event)
    (h : parseInstanceAux attrs vs = .ok (attrs2, evs)) :
    attrs2.length = attrs.length ∧ attrs.length ≤ vs.length ∧ onlyPrints evs = true ∧
    ∀ (i : Nat) (a : Attribute), attrs[i]? = some a →
      ∃ v a2 fevs, vs[i]? = some v ∧ attrs2[i]? = some a2 ∧
        parseField a v = .ok (a2, fevs) := by
  induction attrs generalizing vs attrs2 evs with
  | nil =>
    simp only [parseInstanceAux] at h
    injection h with h1
    injection h1 with h1 h2
    subst h1
    subst h2
    exact ⟨rfl, by simp, rfl, by intro i a hi; simp at hi⟩
  | cons a as ih =>
    cases vs with
    | nil => exact Except.noConfusion h
    | cons v vs =>
      simp only [parseInstanceAux] at h
      split at h
      · exact Except.noConfusion h
      · rename_i fa fevs hpf
        split at h
        · exact Except.noConfusion h
        · rename_i ras revs hrec
          injection h with h1
          injection h1 with h1 h2
          subst h1
          subst h2
          obtain ⟨l1, l2, l3, l4⟩ := ih vs ras revs hrec
          refine ⟨by simp [l1], by simpa using Nat.succ_le_succ l2, ?_, ?_⟩
          · have hp := parseField_onlyPrints a v fa fevs hpf
            simp only [onlyPrints, List.all_append] at *
            simp [hp, l3]
          · intro i x hi
            cases i with
            | zero =>
              simp only [List.getElem?_cons_zero] at hi
              injection hi with hi
              subst hi
              exact ⟨v, fa, fevs, by simp, by simp, hpf⟩
            | succ j =>
              simp only [List.getElem?_cons_succ] at hi
              obtain ⟨v2, a3, gevs, m1, m2, m3⟩ := l4 j x hi
              exact ⟨v2, a3, gevs, by simpa using m1, by simpa using m2, m3⟩

theorem parseInstanceAux_short (attrs : List Attribute) (vs : List String)
    (hb : ∀ a ∈ attrs, benignAttr a = true) (hlt : vs.length < attrs.length) :
    parseInstanceAux attrs vs = .error .indexError := by
  induction attrs generalizing vs with
  | nil => simp at hlt
  | cons a as ih =>
    cases vs with
    | nil => rfl
    | cons v vs =>
      obtain ⟨a2, fevs, hpf⟩ := parseField_benign a v (hb a (List.mem_cons_self a as))
      have hrec := ih vs (fun x hx => hb x (List.mem_cons_of_mem a hx)) (by simpa using hlt)
      simp [parseInstanceAux, hpf, hrec]

theorem parseInstanceAux_total (attrs : List Attribute) (vs : List String)
    (hb : ∀ a ∈ attrs, benignAttr a = true) (hle : attrs.length ≤ vs.length) :
    ∃ attrs2 evs, parseInstanceAux attrs vs = .ok (attrs2, evs) := by
  induction attrs generalizing vs with
  | nil => exact ⟨[], [], rfl⟩
  | cons a as ih =>
    cases vs with
    | nil => simp at hle
    | cons v vs =>
      obtain ⟨a2, fevs, hpf⟩ := parseField_benign a v (hb a (List.mem_cons_self a as))
      obtain ⟨as2, evs2, hrec⟩ := ih vs (fun x hx => hb x (List.mem_cons_of_mem a hx)) (by simpa using hle)
      exact ⟨a2 :: as2, fevs ++ evs2, by simp [parseInstanceAux, hpf, hrec]⟩

theorem checkOrder_true (evs : List Event) : checkOrder true evs = true := by
  induction evs with
  | nil => rfl
  | cons e es ih => cases e <;> simpa [checkOrder] using ih

theorem checkOrder_onlyPrints (seen : Bool) (evs : List Event)
    (h : onlyPrints evs = true) : checkOrder seen evs = true := by
  induction evs with
  | nil => rfl
  | cons e es ih =>
    cases e with
    | printed t =>
      simp only [onlyPrints, List.all_cons, Bool.and_eq_true] at h
      simpa [checkOrder] using ih h.2
    | comment t => simp [onlyPrints, isPrinted] at h
    | create t a => simp [onlyPrints, isPrinted] at h
    | insert t i a => simp [onlyPrints, isPrinted] at h

theorem checkOrder_append (seen : Bool) (e1 e2 : List Event) :
    checkOrder seen (e1 ++ e2) =
      (checkOrder seen e1 && checkOrder (seen || e1.any isCreate) e2) := by
  induction e1 generalizing seen with
  | nil => simp [checkOrder]
  | cons e es ih =>
    cases e with
    | insert t i a =>
      cases seen <;> simp [checkOrder, ih, isCreate]
    | create t a =>
      simp [checkOrder, ih, isCreate, checkOrder_true]
    | comment t =>
      simp [checkOrder, ih, isCreate]
    | printed t =>
      simp [checkOrder, ih, isCreate]

theorem parseDeclaration_spec (st st2 : ArffState) (line : String) (evs : List Event)
    (h : parseDeclaration st line = .ok (st2, evs)) :
    evs.countP isCreate = (if (!imatches (declOf line) "@RELATION" &&
        !imatches (declOf line) "@ATTRIBUTE" && imatches (declOf line) "@DATA")
      then 1 else 0) ∧
    evs.countP isInsert = 0 ∧
    st2.has_data = (st.has_data || evs.any isCreate) ∧
    evs.any isCreate = (!imatches (declOf line) "@RELATION" &&
      !imatches (declOf line) "@ATTRIBUTE" && imatches (declOf line) "@DATA") := by
  simp only [parseDeclaration] at h
  split_ifs at h with h1 h2 h3
  · split at h
    · exact Except.noConfusion h
    · injection h with h4
      injection h4 with h4 h5
      subst h4
      subst h5
      refine ⟨?_, by simp, by simp, by simp [h1]⟩
      rw [if_neg (by simp [h1])]
      simp
  · split at h
    · exact Except.noConfusion h
    · split at h
      · exact Except.noConfusion h
      · rename_i a2 aevs hmk
        injection h with h4
        injection h4 with h4 h5
        subst h4
        subst h5
        obtain ⟨c1, c2, c3⟩ := onlyPrints_counts aevs (mkAttribute_onlyPrints _ a2 aevs hmk)
        refine ⟨?_, c2, by simp [c3], by simp [c3, h2]⟩
        rw [if_neg (by simp [h2])]
        exact c1
  · split at h
    · exact Except.noConfusion h
    · split at h
      · exact Except.noConfusion h
      · injection h with h4
        injection h4 with h4 h5
        subst h4
        subst h5
        refine ⟨?_, by simp [isInsert], by simp [isCreate],
          by simp [isCreate, h1, h2, h3]⟩
        rw [if_pos (by simp [h1, h2, h3])]
        simp [isCreate, List.countP_cons]
  · injection h with h4
    injection h4 with h4 h5
    subst h4
    subst h5
    refine ⟨?_, by simp, by simp, by simp [h3]⟩
    rw [if_neg (by simp [h3])]
    simp

theorem parseInstance_onlyPrints (defn : String) (attrs : List Attribute)
    (inst : Instance) (attrs2 : List Attribute) (evs : List Event)
    (h : parseInstance defn attrs = .ok (inst, attrs2, evs)) : onlyPrints evs = true := by
  simp only [parseInstance] at h
  split at h
  · exact Except.noConfusion h
  · rename_i as2 evs2 haux
    injection h with h1
    injection h1 with hi hrest
    injection hrest with ha he
    subst he
    exact (parseInstanceAux_spec _ _ _ _ haux).2.2.1

theorem checkOrder_noInsert (seen : Bool) (evs : List Event)
    (h : evs.countP isInsert = 0) : checkOrder seen evs = true := by
  induction evs generalizing seen with
  | nil => rfl
  | cons e es ih =>
    cases e with
    | insert t i a => simp [List.countP_cons, isInsert] at h
    | create t a => exact checkOrder_true es
    | comment t =>
      rw [List.countP_cons] at h
      exact ih seen (Nat.eq_zero_of_add_eq_zero_right h)
    | printed t =>
      rw [List.countP_cons] at h
      exact ih seen (Nat.eq_zero_of_add_eq_zero_right h)

theorem parseLine_spec (st st2 : ArffState) (line : String) (evs : List Event)
    (h : parseLine st line = .ok (st2, evs)) :
    evs.countP isCreate = (if isDataDecl line then 1 else 0) ∧
    evs.countP isInsert = (if st.has_data && isDataLine line then 1 else 0) ∧
    st2.has_data = (st.has_data || evs.any isCreate) ∧
    checkOrder st.has_data evs = true ∧
    evs.any isCreate = isDataDecl line := by
  simp only [parseLine] at h
  split at h
  · exact Except.noConfusion h
  · rename_i c rest hdata
    split_ifs at h with hc1 hc2 hc3
    · injection h with h4
      injection h4 with h4 h5
      subst h4
      subst h5
      subst hc1
      refine ⟨?_, ?_, by simp [isCreate], by simp [checkOrder],
        by simp [isCreate, isDataDecl, hdata]⟩
      · rw [if_neg (by simp [isDataDecl, hdata])]
        simp [isCreate, List.countP_cons]
      · rw [if_neg (by simp [isDataLine, hdata])]
        simp [isInsert, List.countP_cons]
    · subst hc2
      obtain ⟨d1, d2, d3, d4⟩ := parseDeclaration_spec st st2 line evs h
      have hdd : isDataDecl line = (!imatches (declOf line) "@RELATION" &&
          !imatches (declOf line) "@ATTRIBUTE" && imatches (declOf line) "@DATA") := by
        simp [isDataDecl, hdata]
      refine ⟨?_, ?_, d3, checkOrder_noInsert st.has_data evs d2, by rw [hdd]; exact d4⟩
      · rw [hdd]
        exact d1
      · rw [if_neg (by simp [isDataLine, hdata])]
        exact d2
    · split at h
      · exact Except.noConfusion h
      · rename_i r hrel
        split at h
        · exact Except.noConfusion h
        · rename_i inst attrs2 pevs hpi
          split at h
          · exact Except.noConfusion h
          · rename_i s hfi
            injection h with h4
            injection h4 with h4 h5
            subst h4
            subst h5
            have hop := parseInstance_onlyPrints line st.attributes inst attrs2 pevs hpi
            obtain ⟨c1, c2, c3⟩ := onlyPrints_counts pevs hop
            refine ⟨?_, ?_, ?_, ?_, ?_⟩
            · rw [if_neg (by simp [isDataDecl, hdata, hc2])]
              simp [List.countP_append, c1, isCreate, List.countP_cons]
            · rw [if_pos (by simp [hc3, isDataLine, hdata, hc1, hc2])]
              simp [List.countP_append, c2, isInsert, List.countP_cons]
            · simp [hc3, List.any_append, c3, isCreate]
            · rw [hc3]
              exact checkOrder_true _
            · have hdd : isDataDecl line = false := by
                simp [isDataDecl, hdata, hc2]
              rw [hdd]
              simp [List.any_append, c3, isCreate]

theorem runLines_spec (lines : List String) (st st2 : ArffState) (evs : List Event)
    (h : runLines st lines = .ok (st2, evs)) :
    evs.countP isCreate = lines.countP isDataDecl ∧
    evs.countP isInsert = countDataAfter st.has_data lines ∧
    st2.has_data = (st.has_data || evs.any isCreate) ∧
    checkOrder st.has_data evs = true := by
  induction lines generalizing st st2 evs with
  | nil =>
    simp only [runLines] at h
    injection h with h1
    injection h1 with h1 h2
    subst h1
    subst h2
    simp [checkOrder, countDataAfter]
  | cons l ls ih =>
    simp only [runLines] at h
    split at h
    · exact Except.noConfusion h
    · rename_i st1 evs1 h1
      split at h
      · exact Except.noConfusion h
      · rename_i st3 evs2 h2
        injection h with h4
        injection h4 with h4 h5
        subst h4
        subst h5
        obtain ⟨p1, p2, p3, p4, p5⟩ := parseLine_spec st st1 l evs1 h1
        obtain ⟨q1, q2, q3, q4⟩ := ih st1 st3 evs2 h2
        have hst1 : st1.has_data = (st.has_data || isDataDecl l) := by
          rw [p3, p5]
        refine ⟨?_, ?_, ?_, ?_⟩
        · simp [List.countP_append, List.countP_cons, p1, q1]
          omega
        · simp only [countDataAfter]
          rw [List.countP_append, p2, q2, hst1]
        · simp [q3, p3, List.any_append, Bool.or_assoc]
        · rw [checkOrder_append]
          rw [p4]
          rw [← p3]
          rw [q4]
          rfl

theorem parseInstance_spec (defn : String) (attrs : List Attribute)
    (inst : Instance) (attrs2 : List Attribute) (evs : List Event)
    (h : parseInstance defn attrs = .ok (inst, attrs2, evs)) :
    inst.fields = List.range attrs.length ∧
    parseInstanceAux attrs (pySplitChar ',' defn) = .ok (attrs2, evs) := by
  simp only [parseInstance] at h
  split at h
  · exact Except.noConfusion h
  · rename_i as2 evs2 haux
    injection h with h1
    injection h1 with hi hrest
    injection hrest with ha he
    subst hi
    subst ha
    subst he
    exact ⟨rfl, haux⟩

/-- The Date branch of Attribute.__init__ is dead code: its guard re-tests
INTEGER, which the earlier branch already consumed, so no constructed
attribute ever carries `DataType.DATE` (the spec instead says unrecognised
type tokens default to Date). -/
theorem mkAttribute_never_date (defn : String) (a : Attribute) (evs : List Event)
    (h : mkAttribute defn = .ok (a, evs)) : a.datatype ≠ some .DATE := by
  simp only [mkAttribute] at h
  repeat' split at h
  all_goals
    first
    | exact Except.noConfusion h
    | (injection h with h1; injection h1 with h1 h2; subst h1; simp [defaultAttr])

-- ---------------------------------------------------------------------------
-- The claims
-- ---------------------------------------------------------------------------

/-- C1, counterexample: with a STRING attribute, after the row `abc` the row
`?` is NOT rendered as NULL — it is rendered with the value `'abc'` parsed
from the earlier row, because the `?` branch only clears the local list slot
and never touches the shared attribute's stored value. -/
theorem claim_C1_counterexample :
    insertSqls ["@RELATION r\n", "@ATTRIBUTE a STRING\n", "@DATA\n", "abc\n", "?\n"] =
      .ok ["INSERT INTO r VALUES(\x27abc\x27);\n", "INSERT INTO r VALUES(\x27abc\x27);\n"] ∧
    "INSERT INTO r VALUES(\x27abc\x27);\n" ≠ "INSERT INTO r VALUES(NULL);\n" :=
  ⟨rfl, by decide⟩

/-- C1, amended: a trimmed field equal to `?` (or `'?'`) leaves the shared
attribute completely unchanged (it prints nothing and raises nothing), and
the position renders as NULL exactly in the case that the attribute's stored
value is still absent — in particular on the first data row. -/
theorem claim_C1_amended (a : Attribute) (raw : String)
    (h : pyStrip raw = "?" ∨ pyStrip raw = "\x27?\x27") :
    parseField a raw = .ok (a, []) ∧ (a.value = none → quoteValue a = .ok "NULL") := by
  constructor
  · rcases h with h | h <;> simp [parseField, h]
  · intro hv
    simp [quoteValue, hv]

theorem claim_C1_witness :
    parseField ⟨none, "a", some .STRING, none, none⟩ " ? " =
      .ok (⟨none, "a", some .STRING, none, none⟩, []) ∧
    quoteValue ⟨none, "a", some .STRING, none, none⟩ = .ok "NULL" := by
  have h := claim_C1_amended ⟨none, "a", some .STRING, none, none⟩ " ? " (Or.inl rfl)
  exact ⟨h.1, h.2 rfl⟩

/-- C2, counterexample: on the weather example the single insertion
statement's value list is `NULL, 85.0`, not `'sunny', 85.0`: the unquoted
nominal field `sunny` has its first and last characters stripped to `unn`,
which fails the membership test. -/
theorem claim_C2_counterexample :
    insertSqls ["@RELATION weather\n", "@ATTRIBUTE outlook \x7bsunny,overcast,rainy\x7d\n",
        "@ATTRIBUTE temperature NUMERIC\n", "@DATA\n", "sunny,85.0\n"] =
      .ok ["INSERT INTO weather VALUES(NULL, 85.0);\n"] ∧
    "INSERT INTO weather VALUES(NULL, 85.0);\n" ≠
      "INSERT INTO weather VALUES(\x27sunny\x27, 85.0);\n" :=
  ⟨rfl, by decide⟩

/-- C2, amended: the weather example produces the claimed schema (varchar(8)
sized to `overcast`, and decimal(20,5)) exactly once, followed by two warning
prints and exactly one insertion statement whose value list is `NULL, 85.0`
(the nominal field is quote-stripped to `unn`, rejected, and rendered NULL). -/
theorem claim_C2_amended :
    arffOutput ["@RELATION weather\n", "@ATTRIBUTE outlook \x7bsunny,overcast,rainy\x7d\n",
        "@ATTRIBUTE temperature NUMERIC\n", "@DATA\n", "sunny,85.0\n"] =
      .ok ("CREATE TABLE \x60weather\x60 (\n\x60outlook\x60 varchar(8),\n\t\x60temperature\x60 decimal(20,5)\n);\n\n" ++
        "[\x27sunny\x27, \x27overcast\x27, \x27rainy\x27]\n" ++
        "Bad value sunny for nominal attribute outlook\n" ++
        "INSERT INTO weather VALUES(NULL, 85.0);\n") := by
  rfl

/-- C3, counterexample: after the quoted member row `'a'`, the non-member row
`'z'` is NOT rendered as NULL — the shared attribute still holds `'a'` from
the previous row, so the second insertion repeats `'a'`. -/
theorem claim_C3_counterexample :
    insertSqls ["@RELATION r\n", "@ATTRIBUTE o \x7ba,b\x7d\n", "@DATA\n",
        "\x27a\x27\n", "\x27z\x27\n"] =
      .ok ["INSERT INTO r VALUES(\x27a\x27);\n", "INSERT INTO r VALUES(\x27a\x27);\n"] ∧
    "INSERT INTO r VALUES(\x27a\x27);\n" ≠ "INSERT INTO r VALUES(NULL);\n" :=
  ⟨rfl, by decide⟩

/-- C3, amended: for a Nominal attribute, a field whose quote-stripped form
is a member of the accepted set is stored and rendered as exactly that
stripped string in quotes; a non-member leaves the attribute unchanged
(so it renders NULL only when no earlier row stored a value) and merely
prints two warnings.  Neither case produces an error. -/
theorem claim_C3_amended (a : Attribute) (acc : List String) (raw : String)
    (hdt : a.datatype = some .NOMINAL) (hacc : a.accepts = some acc)
    (h1 : pyStrip raw ≠ "?") (h2 : pyStrip raw ≠ "\x27?\x27") :
    (acc.contains (pySlice1 (pyStrip raw)) = true →
      parseField a raw =
        .ok ({ a with value := some (.str (pySlice1 (pyStrip raw))) }, []) ∧
      quoteValue { a with value := some (.str (pySlice1 (pyStrip raw))) } =
        .ok ("\x27" ++ pySlice1 (pyStrip raw) ++ "\x27")) ∧
    (acc.contains (pySlice1 (pyStrip raw)) = false →
      parseField a raw = .ok (a, [.printed (pyReprStrList acc),
        .printed ("Bad value " ++ pyStrip raw ++ " for nominal attribute " ++ a.name)])) := by
  constructor
  · intro hmem
    have hmem2 : pySlice1 (pyStrip raw) ∈ acc := by simpa using hmem
    constructor
    · simp [parseField, h1, h2, hdt, hacc, hmem2]
    · simp [quoteValue, hdt, pyReprValue]
  · intro hmem
    have hmem2 : pySlice1 (pyStrip raw) ∉ acc := by simpa using hmem
    simp [parseField, h1, h2, hdt, hacc, hmem2]

theorem claim_C3_witness :
    parseField ⟨none, "o", some .NOMINAL, none, some ["a", "b"]⟩ "\x27a\x27" =
      .ok (⟨some (.str "a"), "o", some .NOMINAL, none, some ["a", "b"]⟩, []) ∧
    parseField ⟨none, "o", some .NOMINAL, none, some ["a", "b"]⟩ "\x27z\x27" =
      .ok (⟨none, "o", some .NOMINAL, none, some ["a", "b"]⟩,
        [.printed "[\x27a\x27, \x27b\x27]",
         .printed "Bad value \x27z\x27 for nominal attribute o"]) := by
  have hm := claim_C3_amended ⟨none, "o", some .NOMINAL, none, some ["a", "b"]⟩
    ["a", "b"] "\x27a\x27" rfl rfl (by decide) (by decide)
  have hn := claim_C3_amended ⟨none, "o", some .NOMINAL, none, some ["a", "b"]⟩
    ["a", "b"] "\x27z\x27" rfl rfl (by decide) (by decide)
  exact ⟨(hm.1 (by decide)).1, hn.2 (by decide)⟩

/-- C4, counterexample: an input with two @DATA lines fires the
schema-creation event twice, not exactly once. -/
theorem claim_C4_counterexample :
    (arffEvents ["@RELATION r\n", "@DATA\n", "@DATA\n"]).map
        (fun evs => evs.countP isCreate) = .ok 2 ∧ (2 : Nat) ≠ 1 :=
  ⟨rfl, by decide⟩

/-- C4, amended: over any run that completes, the schema-creation event
fires once per line dispatched as @DATA — hence exactly once when the input
contains exactly one such line — and every row-insertion event in the trace
is preceded by a schema-creation event. -/
theorem claim_C4_amended (lines : List String) (evs : List Event)
    (h : arffEvents lines = .ok evs) :
    evs.countP isCreate = lines.countP isDataDecl ∧ checkOrder false evs = true := by
  simp only [arffEvents] at h
  split at h
  · exact Except.noConfusion h
  · rename_i st2 evs2 hrun
    injection h with h1
    subst h1
    obtain ⟨c1, _, _, c4⟩ := runLines_spec lines initState st2 evs2 hrun
    exact ⟨c1, c4⟩

theorem claim_C4_witness :
    ∃ evs, arffEvents ["@RELATION r\n", "@DATA\n", "d\n"] = .ok evs ∧
      evs.countP isCreate =
        (["@RELATION r\n", "@DATA\n", "d\n"] : List String).countP isDataDecl ∧
      checkOrder false evs = true :=
  ⟨_, rfl, claim_C4_amended ["@RELATION r\n", "@DATA\n", "d\n"] _ rfl⟩

/-- C5: in any completed run, the number of row-insertion events equals the
number of data lines (nonempty, neither comment nor declaration) appearing
after the @DATA declaration. -/
theorem claim_C5 (lines : List String) (evs : List Event)
    (h : arffEvents lines = .ok evs) :
    evs.countP isInsert = countDataAfter false lines := by
  simp only [arffEvents] at h
  split at h
  · exact Except.noConfusion h
  · rename_i st2 evs2 hrun
    injection h with h1
    subst h1
    exact (runLines_spec lines initState st2 evs2 hrun).2.1

theorem claim_C5_witness :
    ∃ evs, arffEvents ["@RELATION r\n", "@DATA\n", "u\n", "v\n"] = .ok evs ∧
      evs.countP isInsert =
        countDataAfter false ["@RELATION r\n", "@DATA\n", "u\n", "v\n"] :=
  ⟨_, rfl, claim_C5 ["@RELATION r\n", "@DATA\n", "u\n", "v\n"] _ rfl⟩

/-- C6, counterexample: in the formatter-attached run (the path the program
actually takes), a data line before @DATA raises TypeError and aborts the
whole run instead of being skipped with a warning. -/
theorem claim_C6_counterexample :
    arffEvents ["x\n"] = .error .typeError := by
  rfl

/-- C6, amended: a line that is neither comment, declaration, nor a valid
data-state line is handled differently by the two parser modes: with a
formatter attached it raises TypeError and aborts the run; without one it
prints an "Unexpected line encountered" report, leaves the parser state
unchanged, and parsing continues with all subsequent lines. -/
theorem claim_C6_amended (stf : ArffState) (stn : ArffNoFmtState) (line : String)
    (c : Char) (cs : List Char) (rest : List String)
    (hdata : line.data = c :: cs) (hc1 : c ≠ '%') (hc2 : c ≠ '@') :
    (stf.has_data = false → parseLine stf line = .error .typeError) ∧
    (stn.has_data = false →
      parseLineNoFmt stn line =
        .ok (stn, [.printed ("Unexpected line encountered:\n" ++ line)]) ∧
      runLinesNoFmt stn (line :: rest) =
        (match runLinesNoFmt stn rest with
         | .error e => .error e
         | .ok (st2, evs) =>
             .ok (st2, .printed ("Unexpected line encountered:\n" ++ line) :: evs))) := by
  constructor
  · intro hf
    simp [parseLine, hdata, hc1, hc2, hf]
  · intro hn
    have hpl : parseLineNoFmt stn line =
        .ok (stn, [.printed ("Unexpected line encountered:\n" ++ line)]) := by
      simp [parseLineNoFmt, hdata, hc1, hc2, hn]
    refine ⟨hpl, ?_⟩
    simp only [runLinesNoFmt, hpl]
    cases hr : runLinesNoFmt stn rest with
    | error e => rfl
    | ok p => cases p with | mk st2 evs => simp

theorem claim_C6_witness :
    parseLine initState "x\n" = .error .typeError ∧
    parseLineNoFmt ⟨none, [], false, [], []⟩ "x\n" =
      .ok (⟨none, [], false, [], []⟩,
        [.printed ("Unexpected line encountered:\nx\n")]) := by
  have h := claim_C6_amended initState ⟨none, [], false, [], []⟩ "x\n" 'x' ['\n']
    ["%c\n"] rfl (by decide) (by decide)
  exact ⟨h.1 rfl, (h.2 rfl).1⟩

/-- C7: an attribute declaration whose type token is recognised by none of
the branches — for example `when DATE` — leaves `datatype` entirely unset
(the guard of the Date branch re-tests INTEGER, already consumed by the
earlier branch, so the Date branch is dead code and no default Date type or
default date format is ever assigned), and any later data row for that
attribute raises AttributeError instead of parsing. -/
theorem claim_C7 :
    mkAttribute "when DATE" = .ok (⟨none, "when", none, none, none⟩, []) ∧
    parseInstance "2001-04-03T12:12:12\n" [⟨none, "when", none, none, none⟩] =
      .error .attributeError :=
  ⟨rfl, rfl⟩

/-- C8, counterexample: for a NUMERIC attribute, after the row `5.0` the
unparseable row `abc` is NOT rendered as an absent value: the row is still
emitted, but with the stale value `5.0` from the earlier row. -/
theorem claim_C8_counterexample :
    insertSqls ["@RELATION r\n", "@ATTRIBUTE t NUMERIC\n", "@DATA\n", "5.0\n", "abc\n"] =
      .ok ["INSERT INTO r VALUES(5.0);\n", "INSERT INTO r VALUES(5.0);\n"] ∧
    "INSERT INTO r VALUES(5.0);\n" ≠ "INSERT INTO r VALUES(NULL);\n" :=
  ⟨rfl, by decide⟩

/-- C8, amended: a Numeric/Real or Integer field that fails to parse prints
a "Could not parse field" warning and leaves the shared attribute completely
unchanged (so the rendered value is absent only when no earlier row stored
one); no exception escapes, and the row is still produced and emitted. -/
theorem claim_C8_amended (a : Attribute) (raw : String)
    (h1 : pyStrip raw ≠ "?") (h2 : pyStrip raw ≠ "\x27?\x27") :
    ((a.datatype = some .NUMERIC ∨ a.datatype = some .REAL) →
      pyParseFloat (pyStrip raw) = none →
      parseField a raw = .ok (a, [.printed ("Could not parse field " ++ pyStrip raw)])) ∧
    (a.datatype = some .INTEGER → pyParseInt (pyStrip raw) = none →
      parseField a raw = .ok (a, [.printed ("Could not parse field " ++ pyStrip raw)])) := by
  constructor
  · intro hdt hf
    rcases hdt with hdt | hdt <;> simp [parseField, h1, h2, hdt, hf]
  · intro hdt hi
    simp [parseField, h1, h2, hdt, hi]

theorem claim_C8_witness :
    parseField ⟨some (.float 5), "t", some .NUMERIC, none, none⟩ "abc\n" =
      .ok (⟨some (.float 5), "t", some .NUMERIC, none, none⟩,
        [.printed "Could not parse field abc"]) ∧
    parseField ⟨some (.int 3), "k", some .INTEGER, none, none⟩ "5.5" =
      .ok (⟨some (.int 3), "k", some .INTEGER, none, none⟩,
        [.printed "Could not parse field 5.5"]) := by
  have ha := claim_C8_amended ⟨some (.float 5), "t", some .NUMERIC, none, none⟩ "abc\n"
    (by decide) (by decide)
  have hb := claim_C8_amended ⟨some (.int 3), "k", some .INTEGER, none, none⟩ "5.5"
    (by decide) (by decide)
  exact ⟨ha.1 (Or.inl rfl) rfl, hb.2 rfl rfl⟩

/-- C9: Instances alias the parser's shared attribute slots rather than
copying them.  For two successive rows: both Instances carry the same field
references (the indices 0..n-1 of the shared attribute list), rendering the
first row's Instance against the final store gives exactly what rendering
the second one gives (earlier Instances observe the newest values), and a
position of the later row that is missing (`?`) or numerically unparseable
leaves the shared attribute exactly as the earlier rows left it, so its
previously parsed value is what gets rendered. -/
theorem claim_C9 (attrs : List Attribute) (r1 r2 : String)
    (i1 i2 : Instance) (attrs1 attrs2 : List Attribute) (e1 e2 : List Event)
    (h1 : parseInstance r1 attrs = .ok (i1, attrs1, e1))
    (h2 : parseInstance r2 attrs1 = .ok (i2, attrs2, e2)) :
    i1.fields = List.range attrs.length ∧
    i2.fields = i1.fields ∧
    (∀ t, formatInstance t i1 attrs2 = formatInstance t i2 attrs2) ∧
    (∀ (i : Nat) (v : String) (a : Attribute),
      (pySplitChar ',' r2)[i]? = some v → attrs1[i]? = some a →
      (pyStrip v = "?" ∨ pyStrip v = "\x27?\x27" ∨
        ((a.datatype = some .NUMERIC ∨ a.datatype = some .REAL) ∧
          pyParseFloat (pyStrip v) = none)) →
      attrs2[i]? = some a) := by
  obtain ⟨f1, haux1⟩ := parseInstance_spec r1 attrs i1 attrs1 e1 h1
  obtain ⟨f2, haux2⟩ := parseInstance_spec r2 attrs1 i2 attrs2 e2 h2
  obtain ⟨l1, _, _, _⟩ := parseInstanceAux_spec attrs (pySplitChar ',' r1) attrs1 e1 haux1
  obtain ⟨_, _, _, spec2⟩ := parseInstanceAux_spec attrs1 (pySplitChar ',' r2) attrs2 e2 haux2
  have hf : i2.fields = i1.fields := by rw [f1, f2, l1]
  have hii : i1 = i2 := by
    cases i1
    cases i2
    simp only at hf
    rw [hf]
  refine ⟨f1, hf, fun t => by rw [hii], ?_⟩
  intro i v a hv ha hcond
  obtain ⟨v2, a2, fevs, m1, m2, m3⟩ := spec2 i a ha
  rw [hv] at m1
  injection m1 with m1
  subst m1
  have hu := parseField_unchanged a v a2 fevs m3 hcond
  subst hu
  exact m2

theorem claim_C9_witness :
    (⟨[0]⟩ : Instance).fields = List.range 1 ∧
    (([⟨some (.float 5), "t", some .NUMERIC, none, none⟩] :
        List Attribute))[0]? =
      some ⟨some (.float 5), "t", some .NUMERIC, none, none⟩ := by
  have h := claim_C9 [⟨none, "t", some .NUMERIC, none, none⟩] "5.0" "?"
    ⟨[0]⟩ ⟨[0]⟩ [⟨some (.float 5), "t", some .NUMERIC, none, none⟩]
    [⟨some (.float 5), "t", some .NUMERIC, none, none⟩] [] [] rfl rfl
  exact ⟨h.1, h.2.2.2 0 "?" ⟨some (.float 5), "t", some .NUMERIC, none, none⟩
    rfl rfl (Or.inl rfl)⟩

/-- C10: row parsing indexes the comma-split field list without a bounds
guard, so (for attributes whose own field parsing cannot raise) a data line
with fewer fields than attributes makes the whole row construction fail
with IndexError — no field-by-field degradation — while a line with at
least as many fields always yields a row. -/
theorem claim_C10 (line : String) (attrs : List Attribute)
    (hb : ∀ a ∈ attrs, benignAttr a = true) :
    ((pySplitChar ',' line).length < attrs.length →
      parseInstance line attrs = .error .indexError) ∧
    (attrs.length ≤ (pySplitChar ',' line).length →
      ∃ inst attrs2 evs, parseInstance line attrs = .ok (inst, attrs2, evs)) := by
  constructor
  · intro hlt
    have hs := parseInstanceAux_short attrs (pySplitChar ',' line) hb hlt
    simp [parseInstance, hs]
  · intro hle
    obtain ⟨attrs2, evs, haux⟩ := parseInstanceAux_total attrs (pySplitChar ',' line) hb hle
    exact ⟨⟨List.range attrs.length⟩, attrs2, evs, by simp [parseInstance, haux]⟩

theorem claim_C10_witness :
    parseInstance "5.0"
      [⟨none, "t", some .NUMERIC, none, none⟩, ⟨none, "u", some .NUMERIC, none, none⟩] =
      .error .indexError ∧
    ∃ inst attrs2 evs, parseInstance "5.0,6.0"
      [⟨none, "t", some .NUMERIC, none, none⟩, ⟨none, "u", some .NUMERIC, none, none⟩] =
      .ok (inst, attrs2, evs) := by
  have ha := claim_C10 "5.0"
    [⟨none, "t", some .NUMERIC, none, none⟩, ⟨none, "u", some .NUMERIC, none, none⟩]
    (by decide)
  have hb := claim_C10 "5.0,6.0"
    [⟨none, "t", some .NUMERIC, none, none⟩, ⟨none, "u", some .NUMERIC, none, none⟩]
    (by decide)
  exact ⟨ha.1 (by decide), hb.2 (by decide)⟩
